import Mathlib

/-
Shallow embedding of the segment concatenation job service of
src/video-concat-service/app.py (the POST /concat handler `concat_videos`
and the pydantic request models `Scene` and `ConcatRequest`).

External effects (os.makedirs, subprocess.run of curl and ffmpeg, file
writes) are modelled by an explicit event trace, and their outcomes by
oracles collected in `Env`: the generated uuid, whether a path already
exists on disk, the exit code curl returns for the download at each index,
and the exit code ffmpeg returns.  `subprocess.run(..., check=True)`
raises CalledProcessError exactly when the exit code is non-zero; the
handler's `except Exception` clause turns any such exception into
`HTTPException(status_code=500, detail=str(e))`.
-/

namespace VCS

/-- One input segment (pydantic model `Scene` of app.py): a source url and
an advisory duration.  The code never computes with the duration, so the
JSON number is modelled as an integer. -/
structure Scene where
  url : String
  duration : Int
deriving Repr, DecidableEq, Inhabited

/-- Body of POST /concat (pydantic model `ConcatRequest` of app.py). -/
structure ConcatRequest where
  scenes : List Scene
  output_path : String
  campaign_id : String
deriving Repr, DecidableEq

/-- Candidate JSON body before pydantic validation: each field either
present (`some`) or missing (`none`). -/
structure RawScene where
  url : Option String
  duration : Option Int
deriving Repr, DecidableEq

/-- Candidate JSON body of the request before pydantic validation. -/
structure RawConcatRequest where
  scenes : Option (List RawScene)
  output_path : Option String
  campaign_id : Option String
deriving Repr, DecidableEq

/-- Models pydantic parsing of `Scene`: both fields are required; `url`
may be any string and `duration` any number.  No further constraint
appears in app.py (no url well-formedness check, no sign check). -/
def validate_scene (r : RawScene) : Except String Scene :=
  match r.url with
  | none => .error "url: field required"
  | some u =>
    match r.duration with
    | none => .error "duration: field required"
    | some d => .ok { url := u, duration := d }

/-- Models pydantic parsing of `List[Scene]`: each element is parsed in
order; an empty list is accepted (no min-length constraint in app.py). -/
def validate_scenes : List RawScene → Except String (List Scene)
  | [] => .ok []
  | r :: rest => do
    let s ← validate_scene r
    let ss ← validate_scenes rest
    .ok (s :: ss)

/-- Models pydantic parsing of `ConcatRequest`: the three fields are
required, `output_path` and `campaign_id` may be any strings. -/
def validate_request (r : RawConcatRequest) : Except String ConcatRequest :=
  match r.scenes with
  | none => .error "scenes: field required"
  | some raws =>
    match r.output_path with
    | none => .error "output_path: field required"
    | some op =>
      match r.campaign_id with
      | none => .error "campaign_id: field required"
      | some cid => do
        let ss ← validate_scenes raws
        .ok { scenes := ss, output_path := op, campaign_id := cid }

/-- Workspace directory for a job: `f"/tmp/concat_{job_id}"` in app.py. -/
def temp_dir (job_id : String) : String := "/tmp/concat_" ++ job_id

/-- Local file for the segment at index i:
`f"{temp_dir}/scene_{i}.mp4"` in app.py. -/
def scene_path (td : String) (i : Nat) : String :=
  td ++ "/scene_" ++ toString i ++ ".mp4"

/-- Manifest file path: `f"{temp_dir}/concat.txt"` in app.py. -/
def concat_file (td : String) : String := td ++ "/concat.txt"

/-- Output file path: `f"{temp_dir}/output.mp4"` in app.py. -/
def output_file (td : String) : String := td ++ "/output.mp4"

/-- Argument vector of the download call:
`["curl", "-o", scene_path, scene.url]` in app.py.  No timeout or
time-limit option is passed. -/
def curl_args (path url : String) : List String :=
  ["curl", "-o", path, url]

/-- Argument vector of the join call in app.py. -/
def ffmpeg_args (cf outf : String) : List String :=
  ["ffmpeg", "-f", "concat", "-safe", "0", "-i", cf, "-c", "copy", outf]

/-- Python repr of a list of strings, as it appears inside
`str(CalledProcessError)`. -/
def py_list_repr (args : List String) : String :=
  "[" ++ String.intercalate ", " (args.map (fun a => "'" ++ a ++ "'")) ++ "]"

/-- Models `str(subprocess.CalledProcessError(code, args))`: the message
carries the full argument vector (hence the indexed segment path and the
url) and the exit status. -/
def called_process_error_str (args : List String) (code : Nat) : String :=
  "Command '" ++ py_list_repr args ++ "' returned non-zero exit status "
    ++ toString code ++ "."

/-- One line of the concat manifest: `f"file '{scene_file}'\n"` in
app.py — the path single-quoted, the line newline-terminated. -/
def manifest_line (p : String) : String := "file '" ++ p ++ "'\n"

/-- Whole manifest contents written to concat.txt: one line per
downloaded segment, in the order of `scene_files`. -/
def manifest (files : List String) : String :=
  String.join (files.map manifest_line)

/-- External effects of the handler, in program order.  `makedirs`
records the `exist_ok` flag of `os.makedirs`; `run_curl` and
`run_ffmpeg` record the argument vector and the `timeout` argument of
`subprocess.run` (app.py passes none). -/
inductive Event where
  | makedirs (path : String) (exist_ok : Bool)
  | run_curl (args : List String) (timeout : Option Nat)
  | write_file (path : String) (contents : String)
  | run_ffmpeg (args : List String) (timeout : Option Nat)
  | remove_path (path : String)
deriving Repr, DecidableEq

/-- JSON body returned on success by `concat_videos`. -/
structure SuccessBody where
  success : Bool
  output_url : String
  job_id : String
  scene_count : Nat
deriving Repr, DecidableEq

/-- Caller-visible outcome: a 200 response with the success body, or an
HTTPException with a status code and a `detail` string. -/
inductive Response where
  | ok (body : SuccessBody)
  | http_error (status : Nat) (detail : String)
deriving Repr, DecidableEq

/-- HTTP status of a response: a returned dict is a 200. -/
def Response.status : Response → Nat
  | .ok _ => 200
  | .http_error s _ => s

/-- Oracles for the nondeterministic and external parts of one request:
the uuid generated at acceptance, whether a path already exists on disk
before the job runs, the exit code of the download at each index, and
the exit code of the join step. -/
structure Env where
  job_id : String
  dir_exists : String → Bool
  curl_exit : Nat → Nat
  ffmpeg_exit : Nat

/-- The download loop of app.py (`for i, scene in enumerate(request.scenes)`):
at each index in order, runs curl with `check=True`; a non-zero exit
raises CalledProcessError, aborting the loop with no later attempt; on
success the local path is appended to `scene_files`. -/
def download_loop (td : String) (ce : Nat → Nat) :
    Nat → List Scene → List Event × Except String (List String)
  | _, [] => ([], .ok [])
  | i, scene :: rest =>
    let p := scene_path td i
    let args := curl_args p scene.url
    if ce i = 0 then
      let r := download_loop td ce (i + 1) rest
      (Event.run_curl args none :: r.1, r.2.map (fun fs => p :: fs))
    else
      ([Event.run_curl args none],
        .error (called_process_error_str args (ce i)))

/-- The POST /concat handler `concat_videos` of app.py, as a function of
the oracles and the parsed request.  Returns the response together with
the trace of external effects in program order.  `os.makedirs` is called
with `exist_ok=True`, so it succeeds whether or not the directory
already exists and `dir_exists` never influences the run; no removal of
the workspace appears on any path. -/
def concat_videos (env : Env) (request : ConcatRequest) :
    Response × List Event :=
  let td := temp_dir env.job_id
  let mk := Event.makedirs td true
  let dl := download_loop td env.curl_exit 0 request.scenes
  match dl.2 with
  | .error detail => (.http_error 500 detail, mk :: dl.1)
  | .ok scene_files =>
    let cf := concat_file td
    let w := Event.write_file cf (manifest scene_files)
    let outf := output_file td
    let fargs := ffmpeg_args cf outf
    let fev := Event.run_ffmpeg fargs none
    if env.ffmpeg_exit = 0 then
      (.ok { success := true, output_url := "file://" ++ outf,
             job_id := env.job_id, scene_count := scene_files.length },
        mk :: dl.1 ++ [w, fev])
    else
      (.http_error 500 (called_process_error_str fargs env.ffmpeg_exit),
        mk :: dl.1 ++ [w, fev])



/-- Curl events of a run whose downloads (from start index i) all succeed;
also the events of a failing run, restricted to the attempted prefix,
since the recorded invocation does not depend on the outcome. -/
def ok_dl_events (td : String) : Nat → List Scene → List Event
  | _, [] => []
  | i, s :: rest =>
    Event.run_curl (curl_args (scene_path td i) s.url) none
      :: ok_dl_events td (i + 1) rest

/-- Local segment files accumulated when every download succeeds. -/
def ok_scene_files (td : String) : Nat → List Scene → List String
  | _, [] => []
  | i, _ :: rest => scene_path td i :: ok_scene_files td (i + 1) rest

lemma download_loop_ok (td : String) (ce : Nat → Nat) :
    ∀ (scenes : List Scene) (i : Nat),
      (∀ j, j < scenes.length → ce (i + j) = 0) →
      download_loop td ce i scenes
        = (ok_dl_events td i scenes, .ok (ok_scene_files td i scenes)) := by
  intro scenes
  induction scenes with
  | nil => intro i h; rfl
  | cons s rest ih =>
    intro i h
    have h0 : ce i = 0 := by simpa using h 0 (by simp)
    have ih2 := ih (i + 1) (fun j hj => by
      have hx := h (j + 1) (by simpa using Nat.succ_lt_succ hj)
      rw [show i + 1 + j = i + (j + 1) from by omega]
      exact hx)
    simp [download_loop, h0, ih2, ok_dl_events, ok_scene_files, Except.map]

lemma ok_scene_files_length (td : String) :
    ∀ (scenes : List Scene) (i : Nat),
      (ok_scene_files td i scenes).length = scenes.length := by
  intro scenes
  induction scenes with
  | nil => intro i; rfl
  | cons s rest ih => intro i; simp [ok_scene_files, ih]

lemma ok_scene_files_eq_range (td : String) :
    ∀ (scenes : List Scene) (i : Nat),
      ok_scene_files td i scenes
        = (List.range scenes.length).map (fun j => scene_path td (i + j)) := by
  intro scenes
  induction scenes with
  | nil => intro i; simp [ok_scene_files]
  | cons s rest ih =>
    intro i
    simp only [ok_scene_files, List.length_cons, List.range_succ_eq_map,
      List.map_cons, List.map_map]
    congr 1
    rw [ih (i + 1)]
    apply List.map_congr_left
    intro j _
    simp [Function.comp]
    congr 1
    omega

lemma ok_dl_events_eq_range (td : String) :
    ∀ (scenes : List Scene) (i : Nat),
      ok_dl_events td i scenes
        = (List.range scenes.length).map (fun j =>
            Event.run_curl
              (curl_args (scene_path td (i + j)) ((scenes.getD j default).url))
              none) := by
  intro scenes
  induction scenes with
  | nil => intro i; simp [ok_dl_events]
  | cons s rest ih =>
    intro i
    simp only [ok_dl_events, List.length_cons, List.range_succ_eq_map,
      List.map_cons, List.map_map]
    congr 1
    rw [ih (i + 1)]
    apply List.map_congr_left
    intro j _
    simp [Function.comp, List.getD]
    congr 2
    omega

lemma download_loop_fail (td : String) (ce : Nat → Nat) :
    ∀ (scenes : List Scene) (i k : Nat), k < scenes.length →
      (∀ j, j < k → ce (i + j) = 0) → ce (i + k) ≠ 0 →
      download_loop td ce i scenes
        = (ok_dl_events td i (scenes.take (k + 1)),
           .error (called_process_error_str
             (curl_args (scene_path td (i + k)) ((scenes.getD k default).url))
             (ce (i + k)))) := by
  intro scenes
  induction scenes with
  | nil => intro i k hk _ _; exact absurd hk (by simp)
  | cons s rest ih =>
    intro i k hk hpre hfail
    cases k with
    | zero =>
      have h0 : ce i ≠ 0 := by simpa using hfail
      simp [download_loop, h0, ok_dl_events, List.getD]
    | succ k =>
      have h0 : ce i = 0 := by simpa using hpre 0 (by omega)
      have ih2 := ih (i + 1) k (by simpa using Nat.lt_of_succ_lt_succ hk)
        (fun j hj => by
          have hx := hpre (j + 1) (by omega)
          rw [show i + 1 + j = i + (j + 1) from by omega]
          exact hx)
        (by
          rw [show i + 1 + k = i + (k + 1) from by omega]
          exact hfail)
      simp [download_loop, h0, ih2, ok_dl_events, List.getD, Except.map]
      rw [show i + 1 + k = i + (k + 1) from by omega]


lemma getD_take_of_lt {α : Type} (d : α) :
    ∀ (l : List α) (m j : Nat), j < m → (l.take m).getD j d = l.getD j d := by
  intro l
  induction l with
  | nil => intro m j h; simp
  | cons a t ih =>
    intro m j h
    cases m with
    | zero => omega
    | succ m =>
      cases j with
      | zero => simp [List.getD]
      | succ j => simpa [List.getD_cons_succ] using ih m j (by omega)

/-- C1: when every download of an N-scene request succeeds, the trace is
makedirs, one curl per index in ascending order, then the manifest write,
whose contents are exactly N newline-terminated lines in ascending index
order, each of the form file '<segment path>', followed by the join step. -/
theorem manifest_order_preserved (env : Env) (req : ConcatRequest)
    (hN : 1 ≤ req.scenes.length)
    (hok : ∀ i, i < req.scenes.length → env.curl_exit i = 0) :
    (concat_videos env req).2
      = Event.makedirs (temp_dir env.job_id) true
          :: ((List.range req.scenes.length).map (fun i =>
               Event.run_curl
                 (curl_args (scene_path (temp_dir env.job_id) i)
                   ((req.scenes.getD i default).url)) none))
          ++ [Event.write_file (concat_file (temp_dir env.job_id))
                (String.join ((List.range req.scenes.length).map (fun i =>
                  "file '" ++ scene_path (temp_dir env.job_id) i ++ "'\n"))),
              Event.run_ffmpeg
                (ffmpeg_args (concat_file (temp_dir env.job_id))
                  (output_file (temp_dir env.job_id))) none] := by
  have hdl := download_loop_ok (temp_dir env.job_id) env.curl_exit req.scenes 0
    (fun j hj => by simpa using hok j hj)
  by_cases hf : env.ffmpeg_exit = 0 <;>
    simp [concat_videos, hdl, hf, ok_dl_events_eq_range, ok_scene_files_eq_range,
      manifest, manifest_line, List.map_map, Function.comp_def]


/-- Oracles for a two-scene run in which every external call succeeds. -/
def env_w1 : Env := ⟨"w1", fun _ => false, fun _ => 0, 0⟩

/-- Two-scene request used to instantiate the order-preservation theorem. -/
def req_w1 : ConcatRequest := ⟨[⟨"http://a", 5⟩, ⟨"http://b", 3⟩], "x", "c1"⟩

/-- C1 witness: the order-preservation theorem instantiated at a concrete
two-scene request, the trace fully evaluated. -/
theorem manifest_order_preserved_witness :
    (concat_videos env_w1 req_w1).2
      = [Event.makedirs "/tmp/concat_w1" true,
         Event.run_curl ["curl", "-o", "/tmp/concat_w1/scene_0.mp4", "http://a"] none,
         Event.run_curl ["curl", "-o", "/tmp/concat_w1/scene_1.mp4", "http://b"] none,
         Event.write_file "/tmp/concat_w1/concat.txt"
           "file '/tmp/concat_w1/scene_0.mp4'\nfile '/tmp/concat_w1/scene_1.mp4'\n",
         Event.run_ffmpeg
           ["ffmpeg", "-f", "concat", "-safe", "0", "-i", "/tmp/concat_w1/concat.txt",
            "-c", "copy", "/tmp/concat_w1/output.mp4"] none] := by
  rw [manifest_order_preserved env_w1 req_w1 (by decide) (fun i _ => rfl)]
  decide

/-- C2: downloads proceed strictly in index order; when the download at
index k is the first to fail, the trace holds exactly the curl invocations
for indices 0..k in ascending order — indices beyond k are never attempted —
and the job terminates with the 500 error whose detail is the
CalledProcessError message built from the index-k command (hence carrying
the failing segment path scene_k.mp4, its url, and the exit status). -/
theorem download_fail_fast (env : Env) (req : ConcatRequest) (k : Nat)
    (hk : k < req.scenes.length)
    (hpre : ∀ j, j < k → env.curl_exit j = 0)
    (hfail : env.curl_exit k ≠ 0) :
    concat_videos env req
      = (.http_error 500
           (called_process_error_str
             (curl_args (scene_path (temp_dir env.job_id) k)
               ((req.scenes.getD k default).url))
             (env.curl_exit k)),
         Event.makedirs (temp_dir env.job_id) true
           :: (List.range (k + 1)).map (fun j =>
                Event.run_curl
                  (curl_args (scene_path (temp_dir env.job_id) j)
                    ((req.scenes.getD j default).url)) none)) := by
  have hdl := download_loop_fail (temp_dir env.job_id) env.curl_exit req.scenes 0 k hk
    (fun j hj => by simpa using hpre j hj) (by simpa using hfail)
  have hlen : (req.scenes.take (k + 1)).length = k + 1 := by
    simp [List.length_take]
    omega
  simp only [concat_videos, hdl]
  rw [ok_dl_events_eq_range, hlen]
  simp only [Nat.zero_add]
  congr 1
  congr 1
  apply List.map_congr_left
  intro j hj
  rw [getD_take_of_lt _ _ _ _ (List.mem_range.mp hj)]


/-- Oracles for a run whose download at index 1 fails with curl exit 7
while index 0 succeeds. -/
def env_w2 : Env := ⟨"w2", fun _ => false, fun i => if i = 1 then 7 else 0, 0⟩

/-- Three-scene request used to instantiate the fail-fast theorem: the
failure at index 1 must leave index 2 unattempted. -/
def req_w2 : ConcatRequest :=
  ⟨[⟨"http://a", 5⟩, ⟨"http://b", 3⟩, ⟨"http://c", 2⟩], "x", "c1"⟩

/-- C2 witness: the fail-fast theorem instantiated at a three-scene request
failing at index 1 — the trace holds curls for indices 0 and 1 only, and
the 500 detail carries the index-1 segment path, url and exit status. -/
theorem download_fail_fast_witness :
    concat_videos env_w2 req_w2
      = (.http_error 500
           ("Command '['curl', '-o', '/tmp/concat_w2/scene_1.mp4', 'http://b']'"
             ++ " returned non-zero exit status 7."),
         [Event.makedirs "/tmp/concat_w2" true,
          Event.run_curl ["curl", "-o", "/tmp/concat_w2/scene_0.mp4", "http://a"] none,
          Event.run_curl ["curl", "-o", "/tmp/concat_w2/scene_1.mp4", "http://b"] none]) := by
  rw [download_fail_fast env_w2 req_w2 1 (by decide)
    (fun j hj => by
      have hj0 : j = 0 := by omega
      subst hj0
      rfl)
    (by decide)]
  decide

/-- Whether a trace contains no removal at all: true iff no remove_path
event occurs in it. -/
def removes_nothing (evs : List Event) : Bool :=
  evs.all (fun e =>
    match e with
    | .remove_path _ => false
    | _ => true)

lemma download_loop_removes_nothing (td : String) (ce : Nat → Nat) :
    ∀ (scenes : List Scene) (i : Nat),
      removes_nothing (download_loop td ce i scenes).1 = true := by
  intro scenes
  induction scenes with
  | nil => intro i; rfl
  | cons s rest ih =>
    intro i
    by_cases h0 : ce i = 0 <;>
      simp [download_loop, h0, removes_nothing, List.all_cons] <;>
      simpa [removes_nothing] using ih (i + 1)

/-- C3 (code side): no execution of the handler ever removes the workspace
or any job-local file — the trace of every run, successful or failing at
any stage, contains no removal event. -/
theorem workspace_never_removed (env : Env) (req : ConcatRequest) :
    removes_nothing (concat_videos env req).2 = true := by
  have hdl := download_loop_removes_nothing (temp_dir env.job_id) env.curl_exit
    req.scenes 0
  unfold concat_videos
  rcases hres : (download_loop (temp_dir env.job_id) env.curl_exit 0 req.scenes).2 with
    d | fs
  · simp only [hres]
    simpa [removes_nothing, List.all_cons] using hdl
  · by_cases hf : env.ffmpeg_exit = 0 <;>
      simp only [hres, hf] <;>
      simpa [removes_nothing, List.all_cons, List.all_append] using hdl


/-- Oracles for a run of the empty-scenes request: nothing to download,
and the join step on the empty manifest fails with exit status 1. -/
def env_c4 : Env := ⟨"j0", fun _ => false, fun _ => 0, 1⟩

/-- C4 (code side): the empty scenes list passes request validation — no
ValidationError — and the handler then creates the workspace (makedirs is
the first recorded effect), writes an empty manifest, and fails only at
the join step with the generic 500 error. -/
theorem empty_scenes_accepted :
    validate_request ⟨some [], some "x", some "c1"⟩
        = .ok ⟨[], "x", "c1"⟩
      ∧ (concat_videos env_c4 ⟨[], "x", "c1"⟩).2.head?
          = some (Event.makedirs "/tmp/concat_j0" true)
      ∧ (concat_videos env_c4 ⟨[], "x", "c1"⟩).1
          = .http_error 500
              (called_process_error_str
                (ffmpeg_args "/tmp/concat_j0/concat.txt" "/tmp/concat_j0/output.mp4")
                1) := by
  exact ⟨rfl, rfl, rfl⟩

/-- C5: whenever every download succeeds and the join step exits 0, the
handler returns the 200 response whose body is success = true, the
file:// url of the workspace output file, the job_id generated at
acceptance, and scene_count equal to the number of scenes of the
request. -/
theorem success_response_shape (env : Env) (req : ConcatRequest)
    (hok : ∀ i, i < req.scenes.length → env.curl_exit i = 0)
    (hff : env.ffmpeg_exit = 0) :
    (concat_videos env req).1
        = .ok { success := true,
                output_url := "file://" ++ output_file (temp_dir env.job_id),
                job_id := env.job_id,
                scene_count := req.scenes.length }
      ∧ ((concat_videos env req).1).status = 200 := by
  have hdl := download_loop_ok (temp_dir env.job_id) env.curl_exit req.scenes 0
    (fun j hj => by simpa using hok j hj)
  constructor
  · simp [concat_videos, hdl, hff, ok_scene_files_length]
  · simp [concat_videos, hdl, hff, Response.status]

/-- Oracles for a fully successful two-scene run used to instantiate the
success-response theorem. -/
def env_w5 : Env := ⟨"w5", fun _ => false, fun _ => 0, 0⟩

/-- C5 witness: the success-response theorem instantiated at a concrete
two-scene request, the body fully evaluated. -/
theorem success_response_shape_witness :
    (concat_videos env_w5 ⟨[⟨"http://a", 5⟩, ⟨"http://b", 3⟩], "x", "c1"⟩).1
        = .ok ⟨true, "file:///tmp/concat_w5/output.mp4", "w5", 2⟩
      ∧ ((concat_videos env_w5 ⟨[⟨"http://a", 5⟩, ⟨"http://b", 3⟩], "x", "c1"⟩).1).status
        = 200 := by
  have h := success_response_shape env_w5 ⟨[⟨"http://a", 5⟩, ⟨"http://b", 3⟩], "x", "c1"⟩
    (fun i _ => rfl) rfl
  refine ⟨?_, h.2⟩
  rw [h.1]
  decide

/-- C6: every failing run of the handler, whatever stage failed — a
download, the join step, or anything else inside the try block — produces
the single generic shape: HTTP status 500 with a detail string.  A run
either returns 200 or returns a 500 with some detail. -/
theorem failures_collapse_to_500 (env : Env) (req : ConcatRequest) :
    ((concat_videos env req).1).status = 200
      ∨ ∃ d, (concat_videos env req).1 = .http_error 500 d := by
  unfold concat_videos
  rcases hres : (download_loop (temp_dir env.job_id) env.curl_exit 0 req.scenes).2 with
    d | fs
  · right
    exact ⟨d, by simp [hres]⟩
  · by_cases hf : env.ffmpeg_exit = 0
    · left
      simp [hres, hf, Response.status]
    · right
      refine ⟨called_process_error_str
        (ffmpeg_args (concat_file (temp_dir env.job_id))
          (output_file (temp_dir env.job_id)))
        env.ffmpeg_exit, ?_⟩
      simp [hres, hf]


/-- Oracles for a run in which the workspace directory (and every other
path) already exists before the job starts; downloads and join succeed. -/
def env_c7 : Env := ⟨"j2", fun _ => true, fun _ => 0, 0⟩

/-- One-scene request used for the workspace-collision counterexample. -/
def req_c7 : ConcatRequest := ⟨[⟨"http://a", 5⟩], "x", "c"⟩

/-- C7 counterexample: with the storage area /tmp/concat_j2 already
existing, acquisition does not fail — makedirs is invoked with
exist_ok = true and the pre-existing area is silently reused: the job
runs to a 200 success. -/
theorem existing_workspace_silently_reused :
    env_c7.dir_exists (temp_dir env_c7.job_id) = true
      ∧ (concat_videos env_c7 req_c7).2.head?
          = some (Event.makedirs "/tmp/concat_j2" true)
      ∧ ((concat_videos env_c7 req_c7).1).status = 200 :=
  ⟨rfl, rfl, rfl⟩

/-- C7 amended: workspace creation calls makedirs with exist_ok = True,
so a pre-existing area keyed by job_id is silently reused — the run is
entirely independent of which paths already exist on disk, and the
recorded makedirs effect carries exist_ok = true on every run. -/
theorem makedirs_exist_ok_reuse (jid : String) (d1 d2 : String → Bool)
    (ce : Nat → Nat) (fe : Nat) (req : ConcatRequest) :
    concat_videos ⟨jid, d1, ce, fe⟩ req = concat_videos ⟨jid, d2, ce, fe⟩ req
      ∧ (concat_videos ⟨jid, d1, ce, fe⟩ req).2.head?
          = some (Event.makedirs (temp_dir jid) true) := by
  refine ⟨rfl, ?_⟩
  unfold concat_videos
  rcases hres : (download_loop (temp_dir jid) ce 0 req.scenes).2 with d | fs
  · simp [hres]
  · by_cases hf : fe = 0 <;> simp [hres, hf]

/-- Oracles for a successful one-scene run used to exhibit the curl
invocation as recorded. -/
def env_c8 : Env := ⟨"j3", fun _ => false, fun _ => 0, 0⟩

/-- One-scene request used for the no-timeout counterexample. -/
def req_c8 : ConcatRequest := ⟨[⟨"http://a", 5⟩], "x", "c"⟩

/-- C8 counterexample: the retrieval at index 0 of a concrete run is
invoked as plain curl -o with no time-limit option in its argument vector
and no timeout passed to the subprocess call (the recorded timeout is
none) — this retrieval is subject to no bounded timeout. -/
theorem curl_run_without_timeout :
    (concat_videos env_c8 req_c8).2[1]?
      = some (Event.run_curl
          ["curl", "-o", "/tmp/concat_j3/scene_0.mp4", "http://a"] none) :=
  rfl

/-- Whether an event is not an unbounded plain-curl download: true for
non-curl events, and for a curl invocation exactly when it is
curl -o <path> <url> with no subprocess timeout. -/
def plain_curl_no_timeout : Event → Bool
  | .run_curl args t =>
      match t, args with
      | none, ["curl", "-o", _, _] => true
      | _, _ => false
  | _ => true

lemma download_loop_plain_curl (td : String) (ce : Nat → Nat) :
    ∀ (scenes : List Scene) (i : Nat),
      ((download_loop td ce i scenes).1).all plain_curl_no_timeout = true := by
  intro scenes
  induction scenes with
  | nil => intro i; rfl
  | cons s rest ih =>
    intro i
    by_cases h0 : ce i = 0 <;>
      simp [download_loop, h0, curl_args, plain_curl_no_timeout, List.all_cons] <;>
      simpa using ih (i + 1)

/-- C8 amended: no retrieval carries any timeout — every curl event of
every run is the plain invocation curl -o <path> <url> with the subprocess
timeout argument absent, so a retrieval that never completes hangs the
job; a retrieval that fails with a non-zero exit yields the generic 500
error rather than a dedicated timeout error. -/
theorem retrieval_never_time_bounded (env : Env) (req : ConcatRequest) :
    ((concat_videos env req).2).all plain_curl_no_timeout = true := by
  have hdl := download_loop_plain_curl (temp_dir env.job_id) env.curl_exit
    req.scenes 0
  unfold concat_videos
  rcases hres : (download_loop (temp_dir env.job_id) env.curl_exit 0 req.scenes).2 with
    d | fs
  · simp only [hres]
    simpa [plain_curl_no_timeout, List.all_cons] using hdl
  · by_cases hf : env.ffmpeg_exit = 0 <;>
      simp only [hres, hf] <;>
      simpa [plain_curl_no_timeout, List.all_cons, List.all_append] using hdl

/-- C9 counterexample: a request whose single scene has a malformed url
and a negative duration passes validation — no ValidationError. -/
theorem negative_duration_accepted :
    validate_request
        ⟨some [⟨some ":::not a url:::", some (-7)⟩], some "x", some "c"⟩
      = .ok ⟨[⟨":::not a url:::", -7⟩], "x", "c"⟩ :=
  rfl

/-- C9 amended: request validation enforces only the presence of the
typed fields — any url string is accepted without well-formedness checks,
and any duration is accepted including negative ones; only a missing
field fails validation. -/
theorem validation_presence_only (u op cid : String) (d : Int) :
    validate_scene ⟨some u, some d⟩ = .ok ⟨u, d⟩
      ∧ validate_scene ⟨none, some d⟩ = .error "url: field required"
      ∧ validate_scene ⟨some u, none⟩ = .error "duration: field required"
      ∧ validate_request ⟨some [⟨some u, some d⟩], some op, some cid⟩
          = .ok ⟨[⟨u, d⟩], op, cid⟩ :=
  ⟨rfl, rfl, rfl, rfl⟩

/-- C10: the handler never reads output_path or campaign_id — two
requests with the same scenes and the same oracles produce literally the
same response and trace whatever those two fields are — and a successful
run's output_url is file:// followed by the output path inside
/tmp/concat_<job_id>, determined solely by the generated job_id. -/
theorem output_url_ignores_caller_fields (env : Env) (scenes : List Scene)
    (p1 c1 p2 c2 : String) :
    concat_videos env ⟨scenes, p1, c1⟩ = concat_videos env ⟨scenes, p2, c2⟩
      ∧ ((∀ i, i < scenes.length → env.curl_exit i = 0) → env.ffmpeg_exit = 0 →
          (concat_videos env ⟨scenes, p1, c1⟩).1
            = .ok { success := true,
                    output_url := "file://" ++ output_file (temp_dir env.job_id),
                    job_id := env.job_id,
                    scene_count := scenes.length }) := by
  refine ⟨rfl, fun hok hff => ?_⟩
  have hdl := download_loop_ok (temp_dir env.job_id) env.curl_exit scenes 0
    (fun j hj => by simpa using hok j hj)
  simp [concat_videos, hdl, hff, ok_scene_files_length]

/-- Oracles for a successful one-scene run used to instantiate the
caller-field-independence theorem. -/
def env_w10 : Env := ⟨"w10", fun _ => false, fun _ => 0, 0⟩

/-- C10 witness: the independence theorem instantiated at two concrete
requests differing only in output_path and campaign_id, with the
output_url evaluated to its literal file:///tmp/concat_<job_id> form. -/
theorem output_url_ignores_caller_fields_witness :
    concat_videos env_w10 ⟨[⟨"http://a", 5⟩], "pA", "cA"⟩
        = concat_videos env_w10 ⟨[⟨"http://a", 5⟩], "pB", "cB"⟩
      ∧ (concat_videos env_w10 ⟨[⟨"http://a", 5⟩], "pA", "cA"⟩).1
          = .ok ⟨true, "file:///tmp/concat_w10/output.mp4", "w10", 1⟩ := by
  have h := output_url_ignores_caller_fields env_w10 [⟨"http://a", 5⟩]
    "pA" "cA" "pB" "cB"
  refine ⟨h.1, ?_⟩
  rw [h.2 (fun i _ => rfl) rfl]
  decide

end VCS
